import Mathlib

/-!
Verification of the Coding_Utils repository (Python sources:
`aws_utils.py`, `config_utils.py`, `logging_utils.py`, `general_utils.py`).

The Python code is shallowly embedded: option dictionaries become
association lists of Python-like values, environment variables become an
association list of strings, and every external effect (S3 fetch, YAML
parse, STS identity check, file write) is modelled by an explicit oracle
argument describing that effect's outcome.  Stateful code is modelled by
explicit state passing.
-/

namespace CodingUtils

/-- A Python value as it occurs in the option dictionaries of this code
base: `None`, a boolean, a string, or a number (timestamps). -/
inductive PyVal where
  | pnone
  | pbool (b : Bool)
  | pstr (s : String)
  | pnum (n : Nat)
  deriving DecidableEq, Repr

/-- Python truthiness of a `PyVal`: `None` is falsy, booleans are
themselves, a string is truthy iff nonempty, a number iff nonzero. -/
def PyVal.truthy : PyVal → Bool
  | .pnone => false
  | .pbool b => b
  | .pstr s => s ≠ ""
  | .pnum n => n ≠ 0

/-- An options mapping / `**kwargs` dictionary: an association list from
string keys to Python values (first binding wins on lookup). -/
abbrev Opt := List (String × PyVal)

/-- Python `d.get(k)`: the value bound to `k`, or `None` when absent. -/
def pyGet (d : Opt) (k : String) : PyVal :=
  (List.lookup k d).getD PyVal.pnone

/-- Python `d.get(k, default)`. -/
def pyGetD (d : Opt) (k : String) (default : PyVal) : PyVal :=
  (List.lookup k d).getD default

/-- Python `k in d.keys()`. -/
def pyMem (d : Opt) (k : String) : Bool :=
  (List.lookup k d).isSome

/-- Python truthiness of a dict: nonempty. -/
def dictTruthy (d : Opt) : Bool :=
  d ≠ []

/-- Python `d.setdefault(k, v)`: insert `k ↦ v` only when `k` is absent. -/
def setdefault (d : Opt) (k : String) (v : PyVal) : Opt :=
  if pyMem d k then d else d ++ [(k, v)]

/-- The process environment: an association list from variable names to
string values; an absent key models an unset variable. -/
abbrev Env := List (String × String)

/-- Python `os.getenv(k)` as an optional string. -/
def getenv (e : Env) (k : String) : Option String :=
  List.lookup k e

/-- Python `os.getenv(k, default)`. -/
def getenvD (e : Env) (k d : String) : String :=
  (List.lookup k e).getD d

/-- Python `os.getenv(k)` coerced into a `PyVal` (`None` when unset). -/
def envVal (e : Env) (k : String) : PyVal :=
  match List.lookup k e with
  | some s => PyVal.pstr s
  | none => PyVal.pnone

/-- Truthiness of an `os.getenv` result: unset and empty are falsy. -/
def strTruthy : Option String → Bool
  | none => false
  | some s => s ≠ ""

/-! ### Configuration tree

The configuration tree bound by `inject` (an OmegaConf document): each
node has a name, a value and a list of children.  `CForest` is the list
of sibling nodes, defined mutually with `CTree` so that structural
recursion over the nesting is available. -/

mutual

/-- A node of the configuration tree: name, value, children. -/
inductive CTree where
  | node (name : String) (value : PyVal) (children : CForest)

/-- A list of sibling configuration-tree nodes. -/
inductive CForest where
  | fnil
  | fcons (t : CTree) (rest : CForest)

end

mutual

/-- Depth-first search of a single tree for the first node named `key`,
returning that node's value. -/
def dfsFindTree (key : String) : CTree → Option PyVal
  | .node n v cs => if n = key then some v else dfsFindForest key cs

/-- Depth-first search of a forest, left to right. -/
def dfsFindForest (key : String) : CForest → Option PyVal
  | .fnil => none
  | .fcons t rest =>
    match dfsFindTree key t with
    | some v => some v
    | none => dfsFindForest key rest

end

mutual

/-- All values of nodes named `key` in a tree, in depth-first order. -/
def occsTree (key : String) : CTree → List PyVal
  | .node n v cs => (if n = key then [v] else []) ++ occsForest key cs

/-- All values of nodes named `key` in a forest, in depth-first order. -/
def occsForest (key : String) : CForest → List PyVal
  | .fnil => []
  | .fcons t rest => occsTree key t ++ occsForest key rest

end

/-- Modelled from the spec: the repository imports `add_attribute` from a
`utils` module whose source file is not in the repository snapshot (only
its callers in `config_utils.py` and `logging_utils.py` are).  Per the
spec's contract for the key-search helper: given a key name and an
options mapping, if the key is absent, perform a depth-first search over
the currently bound configuration tree for the first node whose name
matches the key, and copy that node's value into the options mapping (or
`null` if no match / no tree bound); if the key is present the mapping is
returned unchanged. -/
def add_attribute (key : String) (opt : Opt) (bound : Option CForest) : Opt :=
  if pyMem opt key then opt
  else
    match bound with
    | none => opt ++ [(key, PyVal.pnone)]
    | some f => opt ++ [(key, (dfsFindForest key f).getD PyVal.pnone)]

/-! ### AWS session manager (`aws_utils.py`)

`AWSSessionManager._create_session` is embedded as a pure function from
the stored singleton options, the optional per-call options, and the
environment, to a description of the `boto3.Session(...)` call it makes:
which keyword arguments were passed (`None` / absent both modelled as
`pnone`). -/

/-- The credential material a constructed `boto3.Session` call carries:
the keyword arguments passed to the constructor (`pnone` when the
argument is not passed). -/
structure Session where
  access_key : PyVal
  secret_key : PyVal
  token : PyVal
  profile : PyVal
  region : PyVal
  deriving DecidableEq, Repr

/-- The fallback part of line 40 of `aws_utils.py`:
`self._opt.get("region") or os.getenv("AWS_DEFAULT_REGION", "us-east-2")`. -/
def regionFallback (stored : Opt) (env : Env) : PyVal :=
  let r := pyGet stored "region"
  if r.truthy then r else PyVal.pstr (getenvD env "AWS_DEFAULT_REGION" "us-east-2")

/-- Line 40 of `aws_utils.py`:
`region = opt.get("region") if opt else self._opt.get("region") or os.getenv("AWS_DEFAULT_REGION", "us-east-2")`.
Python parses the conditional expression so that the `or`-chain is the
whole `else` arm: when the per-call `opt` is truthy (a nonempty dict)
the region is exactly `opt.get("region")`, which is `None` when the key
is absent. -/
def resolveRegion (perCall : Option Opt) (stored : Opt) (env : Env) : PyVal :=
  match perCall with
  | some o => if dictTruthy o then pyGet o "region" else regionFallback stored env
  | none => regionFallback stored env

/-- `os.getenv("USE_KEYS", "false").lower() == "true"`. -/
def useKeysFlag (env : Env) : Bool :=
  (getenvD env "USE_KEYS" "false").toLower = "true"

/-- Truthiness of `os.getenv("AWS_SESSION_TOKEN")`. -/
def envTokenPresent (env : Env) : Bool :=
  (envVal env "AWS_SESSION_TOKEN").truthy

/-- `self._opt.get("profile", os.getenv("AWS_PROFILE"))`. -/
def profileVal (stored : Opt) (env : Env) : PyVal :=
  (List.lookup "profile" stored).getD (envVal env "AWS_PROFILE")

/-- Branch 1: `boto3.Session` from the explicit temporary credentials
stored in the singleton options. -/
def tempCredsSession (stored : Opt) (region : PyVal) : Session :=
  { access_key := pyGet stored "aws_access_key_id"
    secret_key := pyGet stored "aws_secret_access_key"
    token := pyGet stored "aws_session_token"
    profile := PyVal.pnone
    region := region }

/-- Branch 2: `boto3.Session` from environment temporary credentials
(access key, secret key and session token). -/
def envTempSession (env : Env) (region : PyVal) : Session :=
  { access_key := envVal env "AWS_ACCESS_KEY_ID"
    secret_key := envVal env "AWS_SECRET_ACCESS_KEY"
    token := envVal env "AWS_SESSION_TOKEN"
    profile := PyVal.pnone
    region := region }

/-- Branch 3: `boto3.Session` from environment access and secret key
only, no session token passed. -/
def envKeysSession (env : Env) (region : PyVal) : Session :=
  { access_key := envVal env "AWS_ACCESS_KEY_ID"
    secret_key := envVal env "AWS_SECRET_ACCESS_KEY"
    token := PyVal.pnone
    profile := PyVal.pnone
    region := region }

/-- Branch 4: `boto3.Session(profile_name=..., region_name=...)`. -/
def profileSession (p : PyVal) (region : PyVal) : Session :=
  { access_key := PyVal.pnone
    secret_key := PyVal.pnone
    token := PyVal.pnone
    profile := p
    region := region }

/-- Branch 5: `boto3.Session(region_name=...)` — ambient default
credential chain, no explicit credential material. -/
def defaultSession (region : PyVal) : Session :=
  { access_key := PyVal.pnone
    secret_key := PyVal.pnone
    token := PyVal.pnone
    profile := PyVal.pnone
    region := region }

/-- `AWSSessionManager._create_session`: the nested `if`/`elif`/`else`
of lines 46-80 of `aws_utils.py`, returning the `boto3.Session` call it
performs. -/
def createSession (stored : Opt) (perCall : Option Opt) (env : Env) : Session :=
  let region := resolveRegion perCall stored env
  if (pyGet stored "use_temp_creds").truthy then
    tempCredsSession stored region
  else if useKeysFlag env then
    if envTokenPresent env then envTempSession env region
    else envKeysSession env region
  else if (profileVal stored env).truthy then
    profileSession (profileVal stored env) region
  else
    defaultSession region

/-- The five credential strategies of the resolver. -/
inductive CredBranch where
  | tempCredsFromOptions
  | envTempCreds
  | envAccessKeys
  | namedProfile
  | defaultChain
  deriving DecidableEq, Repr

/-- The first-match-wins firing condition of each credential branch, in
the spec's resolution order: a branch fires exactly when its own
condition holds and no earlier branch's condition does. -/
def fires (stored : Opt) (env : Env) : CredBranch → Bool
  | .tempCredsFromOptions => (pyGet stored "use_temp_creds").truthy
  | .envTempCreds =>
    !(pyGet stored "use_temp_creds").truthy && useKeysFlag env && envTokenPresent env
  | .envAccessKeys =>
    !(pyGet stored "use_temp_creds").truthy && useKeysFlag env && !envTokenPresent env
  | .namedProfile =>
    !(pyGet stored "use_temp_creds").truthy && !useKeysFlag env
      && (profileVal stored env).truthy
  | .defaultChain =>
    !(pyGet stored "use_temp_creds").truthy && !useKeysFlag env
      && !(profileVal stored env).truthy

/-- The credential material of each branch. -/
def branchMaterial (b : CredBranch) (stored : Opt) (env : Env) (region : PyVal) :
    Session :=
  match b with
  | .tempCredsFromOptions => tempCredsSession stored region
  | .envTempCreds => envTempSession env region
  | .envAccessKeys => envKeysSession env region
  | .namedProfile => profileSession (profileVal stored env) region
  | .defaultChain => defaultSession region

/-! ### Session singleton state (`get_session` / `_is_session_valid`)

Session handles are numbered so that "the same handle" and "a newly
constructed handle" are distinguishable: `_create_session` stores handle
`nextId` and bumps the counter.  The outcome of the STS
`get_caller_identity` network call is an oracle argument `stsOk`. -/

/-- The mutable state of the session singleton: the cached `_session`
handle (if any) and the next fresh handle id. -/
structure MgrState where
  session : Option Nat
  nextId : Nat
  deriving DecidableEq, Repr

/-- `AWSSessionManager._is_session_valid`: an `AttributeError` (no
session) or a `ClientError` (failed identity check) is caught and yields
`False`. -/
def is_session_valid (st : MgrState) (stsOk : Bool) : Bool :=
  match st.session with
  | none => false
  | some _ => stsOk

/-- The state effect of `AWSSessionManager._create_session`: store a
fresh handle. -/
def createSessionStep (st : MgrState) : MgrState :=
  { session := some st.nextId, nextId := st.nextId + 1 }

/-- `AWSSessionManager.get_session`: recreate the session when it is
`None` or fails validation, then return it. -/
def get_session (st : MgrState) (stsOk : Bool) : Nat × MgrState :=
  match st.session with
  | none => (st.nextId, createSessionStep st)
  | some s =>
    if is_session_valid st stsOk then (s, st)
    else (st.nextId, createSessionStep st)

/-! ### Singleton construction and stored options (`__new__` / `instance`) -/

/-- The class-level state of `AWSSessionManager`: whether `_instance`
exists, and the stored `_opt` dictionary. -/
structure ClsState where
  inst : Bool
  opt : Opt
  deriving DecidableEq, Repr

/-- `AWSSessionManager.__new__(cls, opt={})`: on first construction the
instance is created and `_opt` is set; later constructions leave both
untouched. -/
def newMgr (st : ClsState) (opt : Opt) : ClsState :=
  if st.inst = false then { inst := true, opt := opt } else st

/-- `AWSSessionManager.instance(opt={})`: constructs the instance when
absent, then unconditionally assigns `cls._opt = opt` (the default
argument being the empty dict). -/
def instanceMgr (st : ClsState) (opt : Opt) : ClsState :=
  let st1 := if st.inst = false then newMgr st opt else st
  { st1 with opt := opt }

/-! ### Config manager (`config_utils.py`)

The process-wide state touched by `ConfigManager`: the instance
attribute `_config_cache`, the `inject` binding, the contents of the two
cache files, and the environment.  External effects (S3 fetch, YAML
parse, `inject.configure`, file save, `get_caller_identity`) are oracle
arguments; a failing oracle models that step raising, which the
surrounding Python `try`/`except Exception` catches. -/

/-- Process-wide configuration state. -/
structure ConfigState where
  configCacheAttr : Option CForest
  injected : Option CForest
  cacheFile : Option CForest
  credFile : Option (List (String × String))
  env : Env

/-- `os.environ.update(credentials)`: later bindings replace earlier
ones for the same key. -/
def envUpdate (e : Env) (creds : List (String × String)) : Env :=
  creds.foldl (fun acc kv => (kv.1, kv.2) :: acc.filter (fun p => p.1 ≠ kv.1)) e

/-- `ConfigManager.load_config_from_s3(bucket, config_file, save_cache)`:
resolve a session, fetch the object, parse it, set `_config_cache`, bind
via `inject`, optionally save the cache file.  The whole body is inside
`try: ... except Exception: log`, so the second component — whether an
exception propagates to the caller — is always `Except.ok ()`, and the
state is whatever had been updated before the failing step. -/
def load_config_from_s3 (st : ConfigState) (sessionOk : Bool)
    (fetch : Except String String) (parse : String → Except String CForest)
    (bindOk saveOk save_cache : Bool) : ConfigState × Except String Unit :=
  if sessionOk = false then (st, Except.ok ())
  else
    match fetch with
    | Except.error _ => (st, Except.ok ())
    | Except.ok data =>
      match parse data with
      | Except.error _ => (st, Except.ok ())
      | Except.ok tree =>
        let st1 := { st with configCacheAttr := some tree }
        if bindOk = false then (st1, Except.ok ())
        else
          let st2 := { st1 with injected := some tree }
          if save_cache then
            if saveOk = false then (st2, Except.ok ())
            else ({ st2 with cacheFile := some tree }, Except.ok ())
          else (st2, Except.ok ())

/-- `ConfigManager.load_config(config_file)`: parse a local file, set
`_config_cache`, bind, save the cache file.  Same `try`/`except
Exception` wrapper, so no exception ever propagates. -/
def load_config (st : ConfigState) (loadFile : Except String CForest)
    (bindOk saveOk : Bool) : ConfigState × Except String Unit :=
  match loadFile with
  | Except.error _ => (st, Except.ok ())
  | Except.ok tree =>
    let st1 := { st with configCacheAttr := some tree }
    if bindOk = false then (st1, Except.ok ())
    else
      let st2 := { st1 with injected := some tree }
      if saveOk = false then (st2, Except.ok ())
      else ({ st2 with cacheFile := some tree }, Except.ok ())

/-- `ConfigManager.load_aws_credentials`: when the credentials cache
file exists, read it and update the environment; errors are caught and
logged inside the method. -/
def load_aws_credentials (st : ConfigState) (readOk : Bool) : ConfigState :=
  match st.credFile with
  | none => st
  | some creds =>
    if readOk then { st with env := envUpdate st.env creds } else st

/-- `ConfigManager.load_cached_config`: when the config cache file
exists, load it (`loadOk`), set `_config_cache`, bind (`bindOk`),
restore credentials, and report `True`; any failure is caught and
reported as `False`. -/
def load_cached_config (st : ConfigState) (loadOk bindOk readCredsOk : Bool) :
    ConfigState × Bool :=
  match st.cacheFile with
  | none => (st, false)
  | some tree =>
    if loadOk = false then (st, false)
    else
      let st1 := { st with configCacheAttr := some tree }
      if bindOk = false then (st1, false)
      else
        let st2 := { st1 with injected := some tree }
        (load_aws_credentials st2 readCredsOk, true)

/-- `ConfigManager.test_aws_credentials`: any exception of the session
resolution or the STS identity check is caught, logged and turned into
`False`; `stsOk` is the oracle for the whole sequence succeeding. -/
def test_aws_credentials (stsOk : Bool) : Bool :=
  stsOk

/-- The observable I/O steps `ensure_config_loaded` can take; `s3Fetch`
and `localFileRead` are what the explicit loaders would do and never
appear in its trace. -/
inductive FetchAction where
  | cacheRead
  | stsCheck
  | s3Fetch
  | localFileRead
  deriving DecidableEq, Repr

/-- `ConfigManager.ensure_config_loaded`:
`if not self.load_cached_config() or not self.test_aws_credentials(): raise Exception(...)`.
Returns the updated state, whether an exception was raised, and the
trace of I/O steps taken. -/
def ensure_config_loaded (st : ConfigState) (loadOk bindOk readCredsOk stsOk : Bool) :
    ConfigState × Except String Unit × List FetchAction :=
  let r := load_cached_config st loadOk bindOk readCredsOk
  if r.2 = false then
    (r.1, Except.error "Configuration must be loaded before running any other command.",
      [FetchAction.cacheRead])
  else if test_aws_credentials stsOk = false then
    (r.1, Except.error "Configuration must be loaded before running any other command.",
      [FetchAction.cacheRead, FetchAction.stsCheck])
  else
    (r.1, Except.ok (), [FetchAction.cacheRead, FetchAction.stsCheck])

/-- The loader invocation `init_config` dispatches to (arguments are the
Python values taken from `kwargs`). -/
inductive LoaderCall where
  | s3Load (bucket config_file save_cache : PyVal)
  | localLoad (config_file : PyVal)
  | dictLoad (dict_config_template : PyVal)
  | defaultLoad
  deriving DecidableEq, Repr

/-- The `ValueError` message of `init_config`'s `s3` branch. -/
def s3ArgErr : String :=
  "For \x27s3\x27 method, \x27bucket\x27 and \x27config_file\x27 must be provided."

/-- `init_config(method, **kwargs)`: validate the arguments for the
chosen method, then dispatch to the matching loader; a missing required
argument raises a `ValueError` (`Except.error`) before any loader runs. -/
def init_config (method : String) (kwargs : Opt) : Except String LoaderCall :=
  if method = "s3" then
    if pyMem kwargs "bucket" && pyMem kwargs "config_file" then
      Except.ok (LoaderCall.s3Load (pyGet kwargs "bucket") (pyGet kwargs "config_file")
        (pyGetD kwargs "save_cache" (PyVal.pbool true)))
    else Except.error s3ArgErr
  else if method = "local" then
    if pyMem kwargs "config_file" then
      Except.ok (LoaderCall.localLoad (pyGet kwargs "config_file"))
    else Except.error "For \x27local\x27 method, \x27config_file\x27 must be provided."
  else if method = "dict" then
    if pyMem kwargs "dict_config_template" then
      Except.ok (LoaderCall.dictLoad (pyGet kwargs "dict_config_template"))
    else Except.error "For \x27dict\x27 method, \x27dict_config_template\x27 must be provided."
  else if method = "default" then
    Except.ok LoaderCall.defaultLoad
  else
    Except.error ("Invalid method \x27" ++ method ++ "\x27 specified.")

/-! ### Structured logger (`logging_utils.py`) -/

/-- An observable output of `log_event`: a record handed to the logger
at some severity, or a plain line printed to standard output. -/
inductive LogOutput where
  | record (severity : String) (text : String)
  | stdoutLine (text : String)
  deriving DecidableEq, Repr

/-- `log_event(message, level, opt, is_verbose)`: short-circuit on the
verbosity guard, fill default tags, resolve `name_space` via
`add_attribute`, echo to stdout in pytest mode, otherwise emit one
record at the mapped severity.  Caller file/function/line come from
stack inspection and are passed here as arguments; `now` stands for
`time.time()`.  Returns the outputs produced and the mutated options. -/
def log_event (message level : String) (opt : Opt) (is_verbose : Bool)
    (bound : Option CForest) (callerFile callerFunc : String) (lineno now : Nat) :
    List LogOutput × Opt :=
  if is_verbose && (pyMem opt "verbose" && !(pyGet opt "verbose").truthy) then
    ([], opt)
  else
    let opt1 := setdefault opt "job_id" (PyVal.pstr "null")
    let opt2 := setdefault opt1 "user_email" (PyVal.pstr "null")
    let opt3 := add_attribute "name_space" opt2 bound
    let opt4 := setdefault opt3 (callerFunc ++ "_start_time") (PyVal.pnum now)
    let opt5 := setdefault opt4 "full_search_start_time" (PyVal.pnum now)
    if pyGet opt5 "name_space" = PyVal.pstr "pytest" then
      ([LogOutput.stdoutLine
          (callerFile ++ " - " ++ callerFunc ++ " - " ++ toString lineno ++ " - " ++ message)],
        opt5)
    else if level.toLower = "error" then
      ([LogOutput.record "error"
          (callerFunc ++ " - " ++ toString lineno ++ " - " ++ message)], opt5)
    else if level.toLower = "debug" then
      ([LogOutput.record "debug"
          (callerFunc ++ " - " ++ toString lineno ++ " - " ++ message)], opt5)
    else
      ([LogOutput.record "info" (callerFile ++ " - " ++ message)], opt5)

/-! ### Helper lemmas -/

/-- Looking up a key just appended to a list that does not bind it. -/
theorem lookup_append_fresh (key : String) (opt : Opt) (v : PyVal)
    (h : List.lookup key opt = none) :
    List.lookup key (opt ++ [(key, v)]) = some v := by
  induction opt with
  | nil => simp [List.lookup]
  | cons p rest ih =>
    obtain ⟨pk, pv⟩ := p
    cases hk : (key == pk)
    · simp only [List.cons_append, List.lookup, hk] at h ⊢
      exact ih h
    · simp only [List.cons_append, List.lookup, hk] at h
      simp at h

/-- The branch `_create_session` actually takes, in resolution order. -/
def selectedBranch (stored : Opt) (env : Env) : CredBranch :=
  if (pyGet stored "use_temp_creds").truthy then CredBranch.tempCredsFromOptions
  else if useKeysFlag env then
    if envTokenPresent env then CredBranch.envTempCreds else CredBranch.envAccessKeys
  else if (profileVal stored env).truthy then CredBranch.namedProfile
  else CredBranch.defaultChain

theorem fires_selectedBranch (stored : Opt) (env : Env) :
    fires stored env (selectedBranch stored env) = true := by
  cases h1 : (pyGet stored "use_temp_creds").truthy <;>
    cases h2 : useKeysFlag env <;>
      cases h3 : envTokenPresent env <;>
        cases h4 : (profileVal stored env).truthy <;>
          simp [selectedBranch, fires, h1, h2, h3, h4]

theorem fires_unique (stored : Opt) (env : Env) (b c : CredBranch)
    (hb : fires stored env b = true) (hc : fires stored env c = true) : b = c := by
  cases b <;> cases c <;> simp_all [fires]

theorem createSession_eq_material (stored : Opt) (perCall : Option Opt) (env : Env)
    (b : CredBranch) (hb : fires stored env b = true) :
    createSession stored perCall env
      = branchMaterial b stored env (resolveRegion perCall stored env) := by
  cases b <;> simp_all [fires, createSession, branchMaterial]

/-! ### Claim theorems -/

/-- C1: for every options mapping and environment, session construction
selects exactly one of the five credential strategies — explicit
temporary credentials from options, environment-variable temporary
credentials (USE_KEYS enabled and a session token present),
environment-variable access keys (USE_KEYS enabled, no token), named
profile (from options or AWS_PROFILE), or the default provider chain —
in first-match-wins order (`fires` encodes exactly those mutually
exclusive guards), and the constructed session uses exactly the
credential material of the selected branch. -/
theorem credential_resolution_exactly_one (stored : Opt) (perCall : Option Opt)
    (env : Env) :
    fires stored env (selectedBranch stored env) = true
    ∧ (∀ b, fires stored env b = true → b = selectedBranch stored env)
    ∧ (∀ b, fires stored env b = true →
        createSession stored perCall env
          = branchMaterial b stored env (resolveRegion perCall stored env)) :=
  ⟨fires_selectedBranch stored env,
    fun b hb => fires_unique stored env b _ hb (fires_selectedBranch stored env),
    fun b hb => createSession_eq_material stored perCall env b hb⟩

/-- C1 witness: with `use_temp_creds` set in the stored options, the
branch for explicit temporary credentials fires and the session carries
exactly that material. -/
theorem credential_resolution_exactly_one_witness :
    createSession [("use_temp_creds", PyVal.pbool true), ("aws_access_key_id", PyVal.pstr "AK")]
        none []
      = branchMaterial CredBranch.tempCredsFromOptions
          [("use_temp_creds", PyVal.pbool true), ("aws_access_key_id", PyVal.pstr "AK")] []
          (resolveRegion none
            [("use_temp_creds", PyVal.pbool true), ("aws_access_key_id", PyVal.pstr "AK")] []) :=
  (credential_resolution_exactly_one
      [("use_temp_creds", PyVal.pbool true), ("aws_access_key_id", PyVal.pstr "AK")] none []).2.2
    CredBranch.tempCredsFromOptions (by decide)

/-- C2 counterexample: a nonempty per-call options mapping that lacks a
region does NOT fall through to the stored options' region — the
expression `opt.get("region") if opt else self._opt.get("region") or ...`
makes the whole fallback chain the `else` arm, so the resolved region is
`None`, not the stored `eu-west-1`. -/
theorem region_fallthrough_counterexample :
    resolveRegion (some [("profile", PyVal.pstr "p")])
        [("region", PyVal.pstr "eu-west-1")] [] = PyVal.pnone
    ∧ resolveRegion (some [("profile", PyVal.pstr "p")])
        [("region", PyVal.pstr "eu-west-1")] [] ≠ PyVal.pstr "eu-west-1" := by
  decide

/-- C2 amended: when a truthy (nonempty) per-call options mapping is
supplied, the region is exactly that mapping's region entry (`None` when
absent), with no fallback; only when the per-call mapping is absent or
empty does resolution fall through: stored-option region (when truthy),
else the `AWS_DEFAULT_REGION` environment variable, else the hardcoded
`us-east-2`. -/
theorem region_resolution_amended (perCall : Option Opt) (stored : Opt) (env : Env) :
    (∀ o, perCall = some o → o ≠ [] →
        resolveRegion perCall stored env = pyGet o "region")
    ∧ ((perCall = none ∨ perCall = some []) →
        ((pyGet stored "region").truthy = true →
            resolveRegion perCall stored env = pyGet stored "region")
        ∧ ((pyGet stored "region").truthy = false →
            (∀ r, getenv env "AWS_DEFAULT_REGION" = some r →
                resolveRegion perCall stored env = PyVal.pstr r)
            ∧ (getenv env "AWS_DEFAULT_REGION" = none →
                resolveRegion perCall stored env = PyVal.pstr "us-east-2"))) := by
  constructor
  · intro o ho hne
    subst ho
    simp [resolveRegion, dictTruthy, hne]
  · intro hpc
    have hfall : resolveRegion perCall stored env = regionFallback stored env := by
      rcases hpc with h | h <;> subst h <;> simp [resolveRegion, dictTruthy]
    refine ⟨fun ht => ?_, fun hf => ⟨fun r hr => ?_, fun hn => ?_⟩⟩
    · rw [hfall]; simp [regionFallback, ht]
    · rw [hfall]
      unfold getenv at hr
      simp [regionFallback, hf, getenvD, hr]
    · rw [hfall]
      unfold getenv at hn
      simp [regionFallback, hf, getenvD, hn]

/-- C2 amended witness: a nonempty per-call mapping with a region wins;
instantiated concretely. -/
theorem region_resolution_amended_witness :
    resolveRegion (some [("region", PyVal.pstr "eu-central-1")])
        [("region", PyVal.pstr "eu-west-1")] [] = PyVal.pstr "eu-central-1" :=
  (region_resolution_amended (some [("region", PyVal.pstr "eu-central-1")])
      [("region", PyVal.pstr "eu-west-1")] []).1
    [("region", PyVal.pstr "eu-central-1")] rfl (by decide)

/-- C3: `get_session` called twice with a succeeding identity check
returns the same handle and leaves the state unchanged on the second
call (singleton reuse, no new construction); and when the identity check
fails on an existing session, the call returns the freshly constructed
handle, different from the old one. -/
theorem get_session_singleton_reuse (st : MgrState)
    (hwf : ∀ s, st.session = some s → s < st.nextId) :
    get_session (get_session st true).2 true = get_session st true
    ∧ (∀ s, st.session = some s →
        (get_session st false).1 = st.nextId ∧ (get_session st false).1 ≠ s) := by
  constructor
  · cases h : st.session <;>
      simp [get_session, createSessionStep, is_session_valid, h]
  · intro s hs
    have hlt := hwf s hs
    refine ⟨?_, ?_⟩
    · simp [get_session, is_session_valid, hs]
    · simp [get_session, is_session_valid, hs]
      omega

/-- C3 witness: from a state holding session handle 0 with counter 1, a
failing identity check yields the new handle 1 ≠ 0. -/
theorem get_session_singleton_reuse_witness :
    (get_session { session := some 0, nextId := 1 } false).1 = 1
    ∧ (get_session { session := some 0, nextId := 1 } false).1 ≠ 0 :=
  (get_session_singleton_reuse { session := some 0, nextId := 1 }
      (fun s hs => by injection hs with h; subst h; decide)).2 0 rfl

/-- C9 counterexample: the first construction's options are NOT sticky
under the `instance` classmethod — a later `instance()` call passing no
options replaces the stored options with the empty default dict. -/
theorem sticky_options_counterexample :
    (instanceMgr (instanceMgr { inst := false, opt := [] }
        [("region", PyVal.pstr "us-west-1")]) []).opt
      ≠ [("region", PyVal.pstr "us-west-1")]
    ∧ (instanceMgr (instanceMgr { inst := false, opt := [] }
        [("region", PyVal.pstr "us-west-1")]) []).opt = [] := by
  decide

/-- C9 amended: options are sticky only along the constructor path —
a repeated `__new__` leaves the stored options (and instance) untouched,
and the first `__new__` stores its argument — while every call to the
`instance` classmethod unconditionally replaces the stored options with
its own argument (the empty dict when no options are passed). -/
theorem singleton_options_amended (st : ClsState) (o o2 : Opt) :
    (st.inst = true → newMgr st o = st)
    ∧ (st.inst = false → (newMgr st o).opt = o ∧ (newMgr st o).inst = true)
    ∧ (instanceMgr st o2).opt = o2
    ∧ (instanceMgr st o2).inst = true := by
  cases h : st.inst <;> simp [newMgr, instanceMgr, h]

/-- C9 amended witness: a second `__new__` with different options leaves
the stored options unchanged. -/
theorem singleton_options_amended_witness :
    newMgr { inst := true, opt := [("region", PyVal.pstr "us-west-1")] } []
      = { inst := true, opt := [("region", PyVal.pstr "us-west-1")] } :=
  (singleton_options_amended
      { inst := true, opt := [("region", PyVal.pstr "us-west-1")] } [] []).1 rfl

mutual

theorem dfsFindTree_eq_head (key : String) (t : CTree) :
    dfsFindTree key t = (occsTree key t).head? := by
  cases t with
  | node n v cs =>
    by_cases h : n = key
    · simp [dfsFindTree, occsTree, h]
    · simp [dfsFindTree, occsTree, h, dfsFindForest_eq_head key cs]

theorem dfsFindForest_eq_head (key : String) (f : CForest) :
    dfsFindForest key f = (occsForest key f).head? := by
  cases f with
  | fnil => simp [dfsFindForest, occsForest]
  | fcons t rest =>
    have h1 := dfsFindTree_eq_head key t
    have h2 := dfsFindForest_eq_head key rest
    cases ho : occsTree key t with
    | nil =>
      rw [ho] at h1
      simp [dfsFindForest, occsForest, h1, h2, ho]
    | cons a l =>
      rw [ho] at h1
      simp [dfsFindForest, occsForest, h1, ho]

end

/-- Hypotheses holding, `ensure_config_loaded` succeeds exactly when the
cache file exists and both loading and the identity check succeed. -/
theorem load_aws_credentials_injected (st : ConfigState) (r : Bool) :
    (load_aws_credentials st r).injected = st.injected := by
  unfold load_aws_credentials
  rcases h : st.credFile with _ | creds <;> cases r <;> simp

/-- C4: `ensure_config_loaded` raises exactly when the cached-load-and-
validate sequence fails — the config cache file is absent, or reading it
or binding it fails, or the AWS identity check fails — and when both
steps succeed it returns without error; its I/O trace never contains an
S3 fetch or a local config read, so a cache failure is never followed by
an automatic network fetch. -/
theorem ensure_config_loaded_spec (st : ConfigState)
    (loadOk bindOk readCredsOk stsOk : Bool) :
    ((ensure_config_loaded st loadOk bindOk readCredsOk stsOk).2.1 = Except.ok ()
      ↔ (st.cacheFile.isSome = true ∧ loadOk = true ∧ bindOk = true ∧ stsOk = true))
    ∧ FetchAction.s3Fetch ∉ (ensure_config_loaded st loadOk bindOk readCredsOk stsOk).2.2
    ∧ FetchAction.localFileRead
        ∉ (ensure_config_loaded st loadOk bindOk readCredsOk stsOk).2.2 := by
  rcases hc : st.cacheFile with _ | tree <;>
    cases loadOk <;> cases bindOk <;> cases stsOk <;>
      simp [ensure_config_loaded, load_cached_config, test_aws_credentials, hc]

/-- C5: neither `load_config_from_s3` nor `load_config` ever lets an
exception propagate to the caller — every fetch, parse, bind or
cache-write failure is caught — and in every outcome the process-wide
binding is either left exactly as it was (unset or stale) or holds the
successfully parsed new tree. -/
theorem config_loaders_never_raise (st : ConfigState) (sessionOk : Bool)
    (fetch : Except String String) (parse : String → Except String CForest)
    (bindOk saveOk save_cache : Bool)
    (loadFile : Except String CForest) (bindOk2 saveOk2 : Bool) :
    (load_config_from_s3 st sessionOk fetch parse bindOk saveOk save_cache).2
        = Except.ok ()
    ∧ (load_config st loadFile bindOk2 saveOk2).2 = Except.ok ()
    ∧ ((load_config_from_s3 st sessionOk fetch parse bindOk saveOk save_cache).1.injected
          = st.injected
        ∨ ∃ data tree, fetch = Except.ok data ∧ parse data = Except.ok tree
            ∧ (load_config_from_s3 st sessionOk fetch parse bindOk saveOk
                save_cache).1.injected = some tree)
    ∧ ((load_config st loadFile bindOk2 saveOk2).1.injected = st.injected
        ∨ ∃ tree, loadFile = Except.ok tree
            ∧ (load_config st loadFile bindOk2 saveOk2).1.injected = some tree) := by
  refine ⟨?_, ?_, ?_, ?_⟩
  · unfold load_config_from_s3
    cases sessionOk <;> simp
    rcases fetch with e | data <;> simp
    rcases hp : parse data with e | tree <;> simp
    cases bindOk <;> simp
    cases save_cache <;> cases saveOk <;> simp
  · unfold load_config
    rcases loadFile with e | tree <;> simp
    cases bindOk2 <;> simp
    cases saveOk2 <;> simp
  · unfold load_config_from_s3
    cases sessionOk <;> simp
    rcases fetch with e | data <;> simp
    rcases hp : parse data with e | tree <;> simp
    cases bindOk <;> simp
    cases save_cache <;> cases saveOk <;> simp [hp]
  · unfold load_config
    rcases loadFile with e | tree <;> simp
    cases bindOk2 <;> simp
    cases saveOk2 <;> simp

/-- C6: `init_config("s3", ...)` with a `bucket` argument but no
`config_file` argument raises a `ValueError` whose message names the
missing `config_file` argument, and no loader call is dispatched (the
result is the error, not a `LoaderCall`). -/
theorem init_config_s3_missing_config_file (kwargs : Opt)
    (hb : pyMem kwargs "bucket" = true) (hc : pyMem kwargs "config_file" = false) :
    init_config "s3" kwargs = Except.error s3ArgErr
    ∧ ∃ pre post, s3ArgErr = pre ++ "config_file" ++ post := by
  refine ⟨?_, "For \x27s3\x27 method, \x27bucket\x27 and \x27",
    "\x27 must be provided.", rfl⟩
  simp [init_config, hb, hc]

/-- C6 witness: `init_config("s3", bucket="b")` concretely raises the
`ValueError` naming `config_file`. -/
theorem init_config_s3_missing_config_file_witness :
    init_config "s3" [("bucket", PyVal.pstr "b")] = Except.error s3ArgErr
    ∧ ∃ pre post, s3ArgErr = pre ++ "config_file" ++ post :=
  init_config_s3_missing_config_file [("bucket", PyVal.pstr "b")]
    (by decide) (by decide)

/-- C7: after `load_config_from_s3` succeeds with cache saving enabled
(all effect oracles succeed), an immediately following
`load_cached_config` (no intervening mutation) succeeds and binds a
configuration tree equal to the tree fetched and parsed from S3. -/
theorem s3_cache_roundtrip (st : ConfigState)
    (fetch : Except String String) (parse : String → Except String CForest)
    (data : String) (tree : CForest) (readCredsOk : Bool)
    (hf : fetch = Except.ok data) (hp : parse data = Except.ok tree) :
    (load_cached_config (load_config_from_s3 st true fetch parse true true true).1
        true true readCredsOk).2 = true
    ∧ (load_cached_config (load_config_from_s3 st true fetch parse true true true).1
        true true readCredsOk).1.injected = some tree := by
  subst hf
  simp [load_config_from_s3, hp, load_cached_config, load_aws_credentials_injected]

/-- C7 witness: the round trip at a concrete fetched document and tree. -/
theorem s3_cache_roundtrip_witness :
    (load_cached_config
        (load_config_from_s3
          { configCacheAttr := none, injected := none, cacheFile := none,
            credFile := none, env := [] }
          true (Except.ok "cfg") (fun _ => Except.ok CForest.fnil) true true true).1
        true true false).2 = true
    ∧ (load_cached_config
        (load_config_from_s3
          { configCacheAttr := none, injected := none, cacheFile := none,
            credFile := none, env := [] }
          true (Except.ok "cfg") (fun _ => Except.ok CForest.fnil) true true true).1
        true true false).1.injected = some CForest.fnil :=
  s3_cache_roundtrip
    { configCacheAttr := none, injected := none, cacheFile := none,
      credFile := none, env := [] }
    (Except.ok "cfg") (fun _ => Except.ok CForest.fnil) "cfg" CForest.fnil false
    rfl rfl

/-- C8 (spec-modelled `add_attribute`): a key already present in the
options leaves them unchanged; an absent key with no bound tree is set
to `null`; an absent key with a bound tree containing that key exactly
once is set to that node's value. -/
theorem add_attribute_spec (key : String) (opt : Opt) (bound : Option CForest) :
    (pyMem opt key = true → add_attribute key opt bound = opt)
    ∧ (pyMem opt key = false → bound = none →
        List.lookup key (add_attribute key opt bound) = some PyVal.pnone)
    ∧ (∀ f v, pyMem opt key = false → bound = some f → occsForest key f = [v] →
        List.lookup key (add_attribute key opt bound) = some v) := by
  refine ⟨fun hm => ?_, fun hm hb => ?_, fun f v hm hb hocc => ?_⟩
  · simp [add_attribute, hm]
  · subst hb
    have hl : List.lookup key opt = none := by
      rcases h : List.lookup key opt with _ | w
      · rfl
      · simp [pyMem, h] at hm
    simp only [add_attribute, hm, Bool.false_eq_true, if_false]
    exact lookup_append_fresh key opt PyVal.pnone hl
  · subst hb
    have hl : List.lookup key opt = none := by
      rcases h : List.lookup key opt with _ | w
      · rfl
      · simp [pyMem, h] at hm
    have hd : dfsFindForest key f = some v := by
      rw [dfsFindForest_eq_head, hocc]; rfl
    simp only [add_attribute, hm, Bool.false_eq_true, if_false, hd, Option.getD_some]
    exact lookup_append_fresh key opt v hl

/-- C8 witness: with empty options and a bound tree holding the single
node `a ↦ "x"`, `add_attribute "a"` sets the option to `"x"`. -/
theorem add_attribute_spec_witness :
    List.lookup "a"
        (add_attribute "a" []
          (some (CForest.fcons (CTree.node "a" (PyVal.pstr "x") CForest.fnil)
            CForest.fnil)))
      = some (PyVal.pstr "x") :=
  (add_attribute_spec "a" []
      (some (CForest.fcons (CTree.node "a" (PyVal.pstr "x") CForest.fnil)
        CForest.fnil))).2.2
    (CForest.fcons (CTree.node "a" (PyVal.pstr "x") CForest.fnil) CForest.fnil)
    (PyVal.pstr "x") rfl rfl
    (by simp [occsForest, occsTree])

/-- C10: `log_event` called with `is_verbose = true` on an options
mapping whose `verbose` key is explicitly `False` is a no-op — it emits
no log record and no console output and leaves the options untouched —
for every message, level, bound tree and caller context. -/
theorem log_event_verbose_shortcircuit (message level : String) (opt : Opt)
    (bound : Option CForest) (callerFile callerFunc : String) (lineno now : Nat)
    (h : List.lookup "verbose" opt = some (PyVal.pbool false)) :
    log_event message level opt true bound callerFile callerFunc lineno now
      = ([], opt) := by
  simp [log_event, pyMem, pyGet, h, PyVal.truthy]

/-- C10 witness: the short-circuit at message `"x"`, level `"info"`. -/
theorem log_event_verbose_shortcircuit_witness :
    log_event "x" "info" [("verbose", PyVal.pbool false)] true none "f.py" "g" 3 0
      = ([], [("verbose", PyVal.pbool false)]) :=
  log_event_verbose_shortcircuit "x" "info" [("verbose", PyVal.pbool false)]
    none "f.py" "g" 3 0 rfl

end CodingUtils
